import Mathlib

/-!
Shallow embedding of the Windows OS layer of the database engine
(`src/src/os_win.c`): the byte-range locking protocol
(`sqlite3OsLock`, `sqlite3OsUnlock`, `sqlite3OsCheckWriteLock`) and the
read/write primitives (`sqlite3OsRead`, `sqlite3OsWrite`).

Host interaction is modelled by an oracle: the k-th host lock/unlock call
of an operation receives the Boolean outcome `e.res k`.  Every operation
also returns the trace of host calls it issued, so that statements about
which ranges are locked, released and probed can be made precise.  A
`replay` function folds a trace into the multiset of byte ranges the
process holds on the file, mirroring the host lock manager's view.
-/

namespace OsWin

/-- Lock levels, in the strict order `NONE < SHARED < RESERVED < PENDING <
EXCLUSIVE` used by all comparisons in the source. -/
def NO_LOCK : Nat := 0

/-- SHARED lock level. -/
def SHARED_LOCK : Nat := 1

/-- RESERVED lock level. -/
def RESERVED_LOCK : Nat := 2

/-- PENDING lock level. -/
def PENDING_LOCK : Nat := 3

/-- EXCLUSIVE lock level. -/
def EXCLUSIVE_LOCK : Nat := 4

/-- Result code SQLITE_OK. -/
def SQLITE_OK : Int := 0

/-- Result code SQLITE_BUSY. -/
def SQLITE_BUSY : Int := 5

/-- Result code SQLITE_IOERR. -/
def SQLITE_IOERR : Int := 10

/-- Result code SQLITE_FULL. -/
def SQLITE_FULL : Int := 13

/-- Number of bytes in the shared-lock pool (`#define SHARED_SIZE 10238`). -/
def SHARED_SIZE : Nat := 10238

/-- First byte of the shared-lock pool
(`#define SHARED_FIRST (0xffffffff - SHARED_SIZE + 1)`). -/
def SHARED_FIRST : Nat := 0xffffffff - SHARED_SIZE + 1

/-- The reserved-lock byte (`#define RESERVED_BYTE (SHARED_FIRST - 1)`). -/
def RESERVED_BYTE : Nat := SHARED_FIRST - 1

/-- The pending-lock byte (`#define PENDING_BYTE (RESERVED_BYTE - 1)`). -/
def PENDING_BYTE : Nat := RESERVED_BYTE - 1

/-- Mode of a host byte-range lock call: `excl` for `LockFile`,
`reader` for the `LockFileEx` shared (reader) mode used on NT. -/
inductive LockKind where
| excl : LockKind
| reader : LockKind
deriving DecidableEq

/-- One host call issued by the layer, together with its outcome. -/
inductive HostEvent where
| lockCall (kind : LockKind) (start len : Nat) (ok : Bool) : HostEvent
| unlockCall (start len : Nat) (ok : Bool) : HostEvent
| sleepCall (ms : Nat) : HostEvent
| writeCall (amt : Nat) (ok : Bool) (wrote : Nat) : HostEvent
deriving DecidableEq

/-- The `OsFile` descriptor: handle, current lock level (`locktype`) and
the legacy shared-pool byte index (`sharedLockByte`). -/
structure OsFile where
  h : Nat
  locktype : Nat
  sharedLockByte : Nat
deriving DecidableEq

/-- Host environment for the locking operations: `isNT` is the cached
host-variant flag, `res k` the outcome of the k-th host lock/unlock call
of the operation, and `rand` the 32-bit value produced by
`sqlite3Randomness` for the legacy shared-byte draw. -/
structure Env where
  isNT : Bool
  res : Nat → Bool
  rand : Nat

/-- Intermediate state threaded through the four blocks of
`sqlite3OsLock`: the C variable `res`, the host call counter, the value
of `id->sharedLockByte`, and the trace so far. -/
structure LockStep where
  res : Bool
  k : Nat
  slb : Nat
  trace : List HostEvent
deriving DecidableEq

/-- `getReadLock(h, iByte, nByte)`: reader lock via `LockFileEx` on NT,
plain `LockFile` on legacy hosts.  Consumes one oracle slot. -/
def getReadLock (e : Env) (k iByte nByte : Nat) : Bool × List HostEvent :=
  if e.isNT then (e.res k, [HostEvent.lockCall LockKind.reader iByte nByte (e.res k)])
  else (e.res k, [HostEvent.lockCall LockKind.excl iByte nByte (e.res k)])

/-- `unlockReadLock(id)`: releases the whole shared region on NT, the
single byte `SHARED_FIRST + id->sharedLockByte` on legacy hosts. -/
def unlockReadLock (e : Env) (k slb : Nat) : Bool × List HostEvent :=
  if e.isNT then (e.res k, [HostEvent.unlockCall SHARED_FIRST SHARED_SIZE (e.res k)])
  else (e.res k, [HostEvent.unlockCall (SHARED_FIRST + slb) 1 (e.res k)])

/-- The PENDING retry loop of `sqlite3OsLock`:
`while( cnt-->0 && (res = LockFile(id->h, PENDING_BYTE, 0, 1, 0))==0 ) Sleep(1);`
started with `cnt = 4`.  Returns the final `res`, the next oracle index
and the trace (a failed attempt is followed by the 1 ms sleep). -/
def pendingLoop (e : Env) : Nat → Nat → Bool × Nat × List HostEvent
| 0, k => (false, k, [])
| cnt + 1, k =>
  if e.res k then (true, k + 1, [HostEvent.lockCall LockKind.excl PENDING_BYTE 1 true])
  else
    let p := pendingLoop e cnt (k + 1)
    (p.1, p.2.1,
      HostEvent.lockCall LockKind.excl PENDING_BYTE 1 false :: HostEvent.sleepCall 1 :: p.2.2)

/-- Block 1 of `sqlite3OsLock`: take the PENDING byte when starting from
`NO_LOCK` or when the target is `PENDING_LOCK`. -/
def step1 (e : Env) (id : OsFile) (target : Nat) : LockStep :=
  if id.locktype = NO_LOCK ∨ target = PENDING_LOCK then
    { res := (pendingLoop e 4 0).1, k := (pendingLoop e 4 0).2.1,
      slb := id.sharedLockByte, trace := (pendingLoop e 4 0).2.2 }
  else { res := true, k := 0, slb := id.sharedLockByte, trace := [] }

/-- Block 2 of `sqlite3OsLock`: acquire a SHARED lock (whole-region
reader lock on NT; a random single byte on legacy hosts, recorded in
`id->sharedLockByte`), then drop the PENDING byte when the target is
below `PENDING_LOCK`. -/
def step2 (e : Env) (id : OsFile) (target : Nat) (s : LockStep) : LockStep :=
  if SHARED_LOCK ≤ target ∧ id.locktype < SHARED_LOCK ∧ s.res = true then
    let s1 : LockStep :=
      if e.isNT then
        { res := (getReadLock e s.k SHARED_FIRST SHARED_SIZE).1, k := s.k + 1, slb := s.slb,
          trace := s.trace ++ (getReadLock e s.k SHARED_FIRST SHARED_SIZE).2 }
      else
        { res := e.res s.k, k := s.k + 1,
          slb := (e.rand &&& 0x7fffffff) % (SHARED_SIZE - 1),
          trace := s.trace ++ [HostEvent.lockCall LockKind.excl
            (SHARED_FIRST + (e.rand &&& 0x7fffffff) % (SHARED_SIZE - 1)) 1 (e.res s.k)] }
    if target < PENDING_LOCK then
      { s1 with
        k := s1.k + 1,
        trace := s1.trace ++ [HostEvent.unlockCall PENDING_BYTE 1 (e.res s1.k)] }
    else s1
  else s

/-- Block 3 of `sqlite3OsLock`: acquire the RESERVED byte as a reader
lock. -/
def step3 (e : Env) (id : OsFile) (target : Nat) (s : LockStep) : LockStep :=
  if RESERVED_LOCK ≤ target ∧ id.locktype < RESERVED_LOCK ∧ s.res = true then
    { res := (getReadLock e s.k RESERVED_BYTE 1).1, k := s.k + 1, slb := s.slb,
      trace := s.trace ++ (getReadLock e s.k RESERVED_BYTE 1).2 }
  else s

/-- Second half of block 4: `if( res ) res = LockFile(SHARED_FIRST, ..,
SHARED_SIZE, ..); else res = 0;`. -/
def step4b (e : Env) (s1 : LockStep) : LockStep :=
  if s1.res then
    { res := e.res s1.k, k := s1.k + 1, slb := s1.slb,
      trace := s1.trace ++
        [HostEvent.lockCall LockKind.excl SHARED_FIRST SHARED_SIZE (e.res s1.k)] }
  else { s1 with res := false }

/-- Block 4 of `sqlite3OsLock`: for an EXCLUSIVE target, first release the
shared read lock when one is held, then grab the whole region
exclusively. -/
def step4 (e : Env) (id : OsFile) (target : Nat) (s : LockStep) : LockStep :=
  if target = EXCLUSIVE_LOCK then
    step4b e
      (if SHARED_LOCK ≤ id.locktype then
        { res := (unlockReadLock e s.k s.slb).1, k := s.k + 1, slb := s.slb,
          trace := s.trace ++ (unlockReadLock e s.k s.slb).2 }
      else s)
  else s

/-- The four acquisition blocks of `sqlite3OsLock` run in order. -/
def lockSteps (e : Env) (id : OsFile) (target : Nat) : LockStep :=
  step4 e id target (step3 e id target (step2 e id target (step1 e id target)))

/-- `sqlite3OsLock(id, locktype)`: no-op when an equal or more restrictive
lock is already held; otherwise run the four acquisition blocks, update
`locktype` on success and return BUSY on failure.  Returns the result
code, the updated descriptor and the trace of host calls. -/
def sqlite3OsLock (e : Env) (id : OsFile) (target : Nat) : Int × OsFile × List HostEvent :=
  if target ≤ id.locktype then (SQLITE_OK, id, [])
  else if (lockSteps e id target).res then
    (SQLITE_OK, { id with locktype := target, sharedLockByte := (lockSteps e id target).slb },
      (lockSteps e id target).trace)
  else
    (SQLITE_BUSY, { id with sharedLockByte := (lockSteps e id target).slb },
      (lockSteps e id target).trace)

/-- `sqlite3OsUnlock(id)`: conditionally releases the EXCLUSIVE region,
the PENDING byte, the RESERVED byte and (only at exactly `SHARED_LOCK`)
the shared read lock, then sets `locktype = NO_LOCK` and returns OK. -/
def sqlite3OsUnlock (e : Env) (id : OsFile) : Int × OsFile × List HostEvent :=
  let t1 : List HostEvent :=
    if EXCLUSIVE_LOCK ≤ id.locktype then
      [HostEvent.unlockCall SHARED_FIRST SHARED_SIZE (e.res 0)] else []
  let k1 : Nat := if EXCLUSIVE_LOCK ≤ id.locktype then 1 else 0
  let t2 : List HostEvent :=
    if PENDING_LOCK ≤ id.locktype then [HostEvent.unlockCall PENDING_BYTE 1 (e.res k1)] else []
  let k2 : Nat := if PENDING_LOCK ≤ id.locktype then k1 + 1 else k1
  let t3 : List HostEvent :=
    if RESERVED_LOCK ≤ id.locktype then [HostEvent.unlockCall RESERVED_BYTE 1 (e.res k2)] else []
  let k3 : Nat := if RESERVED_LOCK ≤ id.locktype then k2 + 1 else k2
  let t4 : List HostEvent :=
    if id.locktype = SHARED_LOCK then (unlockReadLock e k3 id.sharedLockByte).2 else []
  (SQLITE_OK, { id with locktype := NO_LOCK }, t1 ++ t2 ++ t3 ++ t4)

/-- `sqlite3OsCheckWriteLock(id)`: computes `rc` (1 when the descriptor is
at RESERVED or above, otherwise the outcome of a non-blocking reader
probe of the RESERVED byte, released again when it succeeded) but then
executes the source's literal `return 0`. -/
def sqlite3OsCheckWriteLock (e : Env) (id : OsFile) : Int × List HostEvent :=
  if RESERVED_LOCK ≤ id.locktype then (0, [])
  else
    let t2 : List HostEvent :=
      if (getReadLock e 0 RESERVED_BYTE 1).1 then
        [HostEvent.unlockCall RESERVED_BYTE 1 (e.res 1)] else []
    (0, (getReadLock e 0 RESERVED_BYTE 1).2 ++ t2)

/-- Host environment for `sqlite3OsRead`: outcome of the single `ReadFile`
call and the byte count it reports on success. -/
structure REnv where
  readOk : Bool
  readGot : Nat

/-- `sqlite3OsRead(id, pBuf, amt)`: when `ReadFile` fails, `got` is forced
to 0; OK exactly when `got` equals the requested amount. -/
def sqlite3OsRead (e : REnv) (_id : OsFile) (amt : Nat) : Int :=
  let got := if e.readOk then e.readGot else 0
  if got = amt then SQLITE_OK else SQLITE_IOERR

/-- Host environment for `sqlite3OsWrite`: `write k` is the outcome of the
k-th `WriteFile` call (`none` for a failed call, `some w` for a call that
reports `w` bytes written); `rc0` and `wrote0` are the indeterminate
initial values of the uninitialized C locals `rc` and `wrote`. -/
structure WEnv where
  write : Nat → Option Nat
  rc0 : Int
  wrote0 : Nat

/-- Value of the C cast `(int)wrote` for a 32-bit unsigned `wrote`. -/
def int32ofUInt32 (w : Nat) : Int :=
  if w % 2 ^ 32 < 2 ^ 31 then (w % 2 ^ 32 : Int) else (w % 2 ^ 32 : Int) - 2 ^ 32

/-- The write loop of `sqlite3OsWrite`:
`while( amt>0 && (rc = WriteFile(..))!=0 && wrote>0 ){ amt -= wrote; .. }`.
Returns the final `amt`, `rc`, `wrote` and the trace; the fuel bounds the
iteration count (each continuing iteration decreases `amt` by at least
one). -/
def writeLoop (e : WEnv) : Nat → Nat → Nat → Int → Nat → Nat × Int × Nat × List HostEvent
| 0, _, amt, rc, wrote => (amt, rc, wrote, [])
| fuel + 1, k, amt, rc, wrote =>
  if amt = 0 then (amt, rc, wrote, [])
  else
    match e.write k with
    | none => (amt, 0, wrote, [HostEvent.writeCall amt false 0])
    | some w =>
      if w = 0 then (amt, 1, 0, [HostEvent.writeCall amt true 0])
      else
        let p := writeLoop e fuel (k + 1) (amt - w) 1 w
        (p.1, p.2.1, p.2.2.1, HostEvent.writeCall amt true w :: p.2.2.2)

/-- `sqlite3OsWrite(id, pBuf, amt)`: run the write loop starting from the
indeterminate locals, then `if( !rc || amt>(int)wrote ) return SQLITE_FULL`. -/
def sqlite3OsWrite (e : WEnv) (_id : OsFile) (amt : Nat) : Int × List HostEvent :=
  let p := writeLoop e amt 0 amt e.rc0 e.wrote0
  (if p.2.1 = 0 ∨ (p.1 : Int) > int32ofUInt32 p.2.2.1 then SQLITE_FULL else SQLITE_OK,
    p.2.2.2)

/-- A byte-range lock held by this process on the file, as the host lock
manager records it. -/
structure HeldLock where
  start : Nat
  len : Nat
  kind : LockKind
deriving DecidableEq

/-- Effect of one host call on the set of ranges this process holds:
successful lock calls add the range, successful unlock calls remove the
matching range, everything else is a no-op. -/
def applyEvent (h : List HeldLock) (ev : HostEvent) : List HeldLock :=
  match ev with
  | HostEvent.lockCall kind s l true => h ++ [⟨s, l, kind⟩]
  | HostEvent.unlockCall s l true => h.filter (fun x => ¬(x.start = s ∧ x.len = l))
  | _ => h

/-- Replay a trace of host calls over an initial set of held ranges. -/
def replay (h : List HeldLock) (tr : List HostEvent) : List HeldLock :=
  tr.foldl applyEvent h

/-- True for a successful host lock acquisition whose range intersects the
shared region `[SHARED_FIRST, SHARED_FIRST + SHARED_SIZE)`. -/
def acquiresInSharedRegion : HostEvent → Bool
| HostEvent.lockCall _ s l ok =>
  decide (SHARED_FIRST < s + l) && decide (s < SHARED_FIRST + SHARED_SIZE) && ok
| _ => false

/-- The successful host call that releases the descriptor's shared read
lock (whole region on NT, the recorded single byte on legacy hosts). -/
def sharedRelease (e : Env) (slb : Nat) : HostEvent :=
  if e.isNT then HostEvent.unlockCall SHARED_FIRST SHARED_SIZE true
  else HostEvent.unlockCall (SHARED_FIRST + slb) 1 true

/-- One operation on a descriptor, for stating the `locktype` evolution
invariant over arbitrary operation sequences. -/
inductive FileOp where
| lockOp (target : Nat) : FileOp
| unlockOp : FileOp
deriving DecidableEq

/-- The descriptor produced by one lock or unlock operation. -/
def applyOp (e : Env) (id : OsFile) : FileOp → OsFile
| FileOp.lockOp target => (sqlite3OsLock e id target).2.1
| FileOp.unlockOp => (sqlite3OsUnlock e id).2.1

/-- Environment in which every host call succeeds (NT host). -/
def envT : Env := { isNT := true, res := fun _ => true, rand := 0 }

/-- Environment in which every host call fails (NT host). -/
def envF : Env := { isNT := true, res := fun _ => false, rand := 0 }

/-- Environment in which only the first host call succeeds (NT host); used
to drive the EXCLUSIVE promotion into its failing branch. -/
def envC2 : Env := { isNT := true, res := fun k => k == 0, rand := 0 }

/-- All-success legacy-host environment with a fixed random draw. -/
def envL : Env := { isNT := false, res := fun _ => true, rand := 12345 }

/-! ## Helper lemmas about the acquisition blocks -/

theorem step2_resFalse (e : Env) (id : OsFile) (target : Nat) (s : LockStep)
    (h : s.res = false) : step2 e id target s = s := by
  unfold step2
  rw [if_neg]
  simp [h]

theorem step3_resFalse (e : Env) (id : OsFile) (target : Nat) (s : LockStep)
    (h : s.res = false) : step3 e id target s = s := by
  unfold step3
  rw [if_neg]
  simp [h]

theorem step4_skip (e : Env) (id : OsFile) (target : Nat) (s : LockStep)
    (h : s.res = false) (h2 : id.locktype < SHARED_LOCK ∨ target ≠ EXCLUSIVE_LOCK) :
    step4 e id target s = s := by
  rcases h2 with h2 | h2
  · unfold step4
    split
    · have hc : ¬ SHARED_LOCK ≤ id.locktype := by omega
      rw [if_neg hc]
      unfold step4b
      rw [if_neg (by simp [h])]
      obtain ⟨r, k, sl, tr⟩ := s
      simp only [LockStep.res] at h
      subst h
      rfl
    · rfl
  · unfold step4
    rw [if_neg h2]

theorem step3_slb (e : Env) (id : OsFile) (target : Nat) (s : LockStep) :
    (step3 e id target s).slb = s.slb := by
  unfold step3
  split <;> rfl

theorem step4b_slb (e : Env) (s : LockStep) : (step4b e s).slb = s.slb := by
  unfold step4b
  split <;> rfl

theorem step4_slb (e : Env) (id : OsFile) (target : Nat) (s : LockStep) :
    (step4 e id target s).slb = s.slb := by
  unfold step4
  split
  · rw [step4b_slb]
    split <;> rfl
  · rfl

theorem step3_trace (e : Env) (id : OsFile) (target : Nat) (s : LockStep) :
    ∃ u, (step3 e id target s).trace = s.trace ++ u := by
  unfold step3
  split
  · exact ⟨_, rfl⟩
  · exact ⟨[], by simp⟩

theorem step4b_trace (e : Env) (s : LockStep) : ∃ u, (step4b e s).trace = s.trace ++ u := by
  unfold step4b
  split
  · exact ⟨_, rfl⟩
  · exact ⟨[], by simp⟩

theorem step4_trace (e : Env) (id : OsFile) (target : Nat) (s : LockStep) :
    ∃ u, (step4 e id target s).trace = s.trace ++ u := by
  unfold step4
  split
  · obtain ⟨u, hu⟩ := step4b_trace e
      (if SHARED_LOCK ≤ id.locktype then
        { res := (unlockReadLock e s.k s.slb).1, k := s.k + 1, slb := s.slb,
          trace := s.trace ++ (unlockReadLock e s.k s.slb).2 }
      else s)
    rw [hu]
    split
    · exact ⟨(unlockReadLock e s.k s.slb).2 ++ u, by simp⟩
    · exact ⟨u, rfl⟩
  · exact ⟨[], by simp⟩

theorem pendingLoop_allFail (e : Env)
    (h0 : e.res 0 = false) (h1 : e.res 1 = false) (h2 : e.res 2 = false)
    (h3 : e.res 3 = false) :
    pendingLoop e 4 0 =
      (false, 4,
        [HostEvent.lockCall LockKind.excl PENDING_BYTE 1 false, HostEvent.sleepCall 1,
         HostEvent.lockCall LockKind.excl PENDING_BYTE 1 false, HostEvent.sleepCall 1,
         HostEvent.lockCall LockKind.excl PENDING_BYTE 1 false, HostEvent.sleepCall 1,
         HostEvent.lockCall LockKind.excl PENDING_BYTE 1 false, HostEvent.sleepCall 1]) := by
  simp [pendingLoop, h0, h1, h2, h3]

/-! ## Claims -/

/-- Claim C1 (code bug): `sqlite3OsCheckWriteLock` is documented — and the
claim states — to return true iff some process holds RESERVED or higher,
but the source ends with a literal `return 0`: the function returns 0 for
every input, in particular for a descriptor that itself holds
RESERVED, where the claim requires a true result.  The second conjunct
evaluates the failing input: a RESERVED holder gets answer 0 with no host
call issued. -/
theorem checkWriteLock_returns_zero :
    (∀ (e : Env) (id : OsFile), (sqlite3OsCheckWriteLock e id).1 = 0) ∧
    sqlite3OsCheckWriteLock envT ⟨0, RESERVED_LOCK, 0⟩ = (0, []) := by
  constructor
  · intro e id
    unfold sqlite3OsCheckWriteLock
    split <;> rfl
  · decide

/-- Claim C5: `lock(fd, level)` with `level ≤ fd.locktype` is a no-op that
returns OK — the descriptor is unchanged and no host call is issued. -/
theorem lock_noop_at_or_below (e : Env) (id : OsFile) (target : Nat)
    (h : target ≤ id.locktype) :
    sqlite3OsLock e id target = (SQLITE_OK, id, []) := by
  unfold sqlite3OsLock
  rw [if_pos h]

/-- Witness for C5 at a concrete descriptor already holding SHARED. -/
theorem lock_noop_at_or_below_w :
    sqlite3OsLock envT ⟨0, SHARED_LOCK, 0⟩ SHARED_LOCK =
      (SQLITE_OK, ⟨0, SHARED_LOCK, 0⟩, []) :=
  lock_noop_at_or_below envT ⟨0, SHARED_LOCK, 0⟩ SHARED_LOCK (by decide)

/-- Claim C9: whenever `sqlite3OsLock` returns BUSY, the descriptor's
`locktype` field still has exactly its entry value, for every starting
state and requested level. -/
theorem lock_busy_preserves_locktype (e : Env) (id : OsFile) (target : Nat)
    (h : (sqlite3OsLock e id target).1 = SQLITE_BUSY) :
    (sqlite3OsLock e id target).2.1.locktype = id.locktype := by
  unfold sqlite3OsLock at h ⊢
  by_cases hle : target ≤ id.locktype
  · rw [if_pos hle] at h
    simp [SQLITE_OK, SQLITE_BUSY] at h
  · rw [if_neg hle] at h ⊢
    by_cases hres : (lockSteps e id target).res = true
    · rw [if_pos hres] at h
      simp [SQLITE_OK, SQLITE_BUSY] at h
    · rw [if_neg hres]

/-- Witness for C9: a SHARED request from NONE with every host call
failing returns BUSY and leaves `locktype = NONE`. -/
theorem lock_busy_preserves_locktype_w :
    (sqlite3OsLock envF ⟨0, NO_LOCK, 0⟩ SHARED_LOCK).2.1.locktype = NO_LOCK :=
  lock_busy_preserves_locktype envF ⟨0, NO_LOCK, 0⟩ SHARED_LOCK (by decide)

/-- Claim C6: across every sequence of lock and unlock operations,
`locktype` never decreases except through unlock, which sets it directly
to NONE; and every lock call either leaves `locktype` unchanged or raises
it to the requested target. -/
theorem locktype_never_decreases :
    (∀ (e : Env) (id : OsFile) (op : FileOp),
        id.locktype ≤ (applyOp e id op).locktype ∨
          (op = FileOp.unlockOp ∧ (applyOp e id op).locktype = NO_LOCK)) ∧
    (∀ (e : Env) (id : OsFile) (target : Nat),
        (sqlite3OsLock e id target).2.1.locktype = id.locktype ∨
          (id.locktype < target ∧ (sqlite3OsLock e id target).2.1.locktype = target)) := by
  have hlock : ∀ (e : Env) (id : OsFile) (target : Nat),
      (sqlite3OsLock e id target).2.1.locktype = id.locktype ∨
        (id.locktype < target ∧ (sqlite3OsLock e id target).2.1.locktype = target) := by
    intro e id target
    unfold sqlite3OsLock
    by_cases hle : target ≤ id.locktype
    · rw [if_pos hle]
      left
      rfl
    · rw [if_neg hle]
      by_cases hres : (lockSteps e id target).res = true
      · rw [if_pos hres]
        right
        exact ⟨by omega, rfl⟩
      · rw [if_neg hres]
        left
        rfl
  refine ⟨?_, hlock⟩
  intro e id op
  cases op with
  | lockOp target =>
    left
    simp only [applyOp]
    rcases hlock e id target with h | h
    · omega
    · omega
  | unlockOp => exact Or.inr ⟨rfl, rfl⟩

/-- Claim C8: `sqlite3OsRead` returns OK when the effective byte count
read equals the requested amount and IOERR whenever fewer bytes were
read, including the case of a failed host read call (which forces the
count to 0). -/
theorem read_exact_or_ioerr (e : REnv) (id : OsFile) (amt : Nat) :
    ((if e.readOk then e.readGot else 0) = amt → sqlite3OsRead e id amt = SQLITE_OK) ∧
    ((if e.readOk then e.readGot else 0) < amt → sqlite3OsRead e id amt = SQLITE_IOERR) ∧
    (e.readOk = false → 0 < amt → sqlite3OsRead e id amt = SQLITE_IOERR) := by
  refine ⟨fun h => ?_, fun h => ?_, fun hok hpos => ?_⟩
  · simp [sqlite3OsRead, h]
  · simp [sqlite3OsRead, Nat.ne_of_lt h]
  · have hne : (0 : Nat) ≠ amt := by omega
    simp [sqlite3OsRead, hok, hne]

/-- Witness for C8: a full read of 5 bytes, a short read of 3 of 5 bytes,
and a failed host call with 5 requested. -/
theorem read_exact_or_ioerr_w :
    sqlite3OsRead ⟨true, 5⟩ ⟨0, NO_LOCK, 0⟩ 5 = SQLITE_OK ∧
    sqlite3OsRead ⟨true, 3⟩ ⟨0, NO_LOCK, 0⟩ 5 = SQLITE_IOERR ∧
    sqlite3OsRead ⟨false, 7⟩ ⟨0, NO_LOCK, 0⟩ 5 = SQLITE_IOERR :=
  ⟨(read_exact_or_ioerr ⟨true, 5⟩ ⟨0, NO_LOCK, 0⟩ 5).1 (by decide),
   (read_exact_or_ioerr ⟨true, 3⟩ ⟨0, NO_LOCK, 0⟩ 5).2.1 (by decide),
   (read_exact_or_ioerr ⟨false, 7⟩ ⟨0, NO_LOCK, 0⟩ 5).2.2 rfl (by decide)⟩

/-- Claim C10 (code bug): `sqlite3OsWrite` with a byte count of 0 issues
no host write call (first conjunct, for every environment), but its
return value reads the uninitialized C locals `rc` and `wrote`: when the
stale `rc` is 0 the function returns FULL instead of the claimed OK
(second conjunct), and only a nonzero stale `rc` (with small stale
`wrote`) yields OK (third conjunct). -/
theorem write_zero_uninitialized :
    (∀ (e : WEnv) (id : OsFile), (sqlite3OsWrite e id 0).2 = []) ∧
    sqlite3OsWrite ⟨fun _ => some 1, 0, 0⟩ ⟨0, NO_LOCK, 0⟩ 0 = (SQLITE_FULL, []) ∧
    sqlite3OsWrite ⟨fun _ => some 1, 1, 0⟩ ⟨0, NO_LOCK, 0⟩ 0 = (SQLITE_OK, []) := by
  refine ⟨fun e id => rfl, by decide, by decide⟩

/-- Counterexample to claim C4 as stated: a call `lock(fd, PENDING)` on a
descriptor already at EXCLUSIVE satisfies the claim's guard
(`target == PENDING`) yet issues no PENDING-byte attempt at all and
returns OK even though every host call would fail — the no-op early
return fires first.  The claim needs the extra hypothesis
`fd.locktype < target`. -/
theorem lock_pending_no_attempt_cex :
    sqlite3OsLock envF ⟨0, EXCLUSIVE_LOCK, 0⟩ PENDING_LOCK =
      (SQLITE_OK, ⟨0, EXCLUSIVE_LOCK, 0⟩, []) := by
  decide

/-- Claim C4 (amended with `fd.locktype < target`): when the descriptor
starts at NONE or the target is PENDING, the implementation attempts a
1-byte exclusive host lock on `PENDING_BYTE` up to 4 times with a 1 ms
sleep after each failure, and when all 4 attempts fail the call returns
BUSY with the descriptor unchanged and no further host call of any
kind. -/
theorem lock_pending_retry_busy (e : Env) (id : OsFile) (target : Nat)
    (hlt : id.locktype < target)
    (hc : id.locktype = NO_LOCK ∨ target = PENDING_LOCK)
    (hf : ∀ k, k < 4 → e.res k = false) :
    sqlite3OsLock e id target =
      (SQLITE_BUSY, id,
        [HostEvent.lockCall LockKind.excl PENDING_BYTE 1 false, HostEvent.sleepCall 1,
         HostEvent.lockCall LockKind.excl PENDING_BYTE 1 false, HostEvent.sleepCall 1,
         HostEvent.lockCall LockKind.excl PENDING_BYTE 1 false, HostEvent.sleepCall 1,
         HostEvent.lockCall LockKind.excl PENDING_BYTE 1 false, HostEvent.sleepCall 1]) := by
  have hp := pendingLoop_allFail e (hf 0 (by omega)) (hf 1 (by omega)) (hf 2 (by omega))
    (hf 3 (by omega))
  have hnle : ¬ target ≤ id.locktype := by omega
  have hcur : id.locktype < SHARED_LOCK ∨ target ≠ EXCLUSIVE_LOCK := by
    rcases hc with h | h
    · left
      rw [h]
      decide
    · right
      rw [h]
      decide
  have hs1 : step1 e id target =
      ⟨false, 4, id.sharedLockByte,
        [HostEvent.lockCall LockKind.excl PENDING_BYTE 1 false, HostEvent.sleepCall 1,
         HostEvent.lockCall LockKind.excl PENDING_BYTE 1 false, HostEvent.sleepCall 1,
         HostEvent.lockCall LockKind.excl PENDING_BYTE 1 false, HostEvent.sleepCall 1,
         HostEvent.lockCall LockKind.excl PENDING_BYTE 1 false, HostEvent.sleepCall 1]⟩ := by
    unfold step1
    rw [if_pos hc, hp]
  have hsteps : lockSteps e id target = step1 e id target := by
    unfold lockSteps
    rw [step2_resFalse e id target _ (by rw [hs1]), step3_resFalse e id target _ (by rw [hs1]),
      step4_skip e id target _ (by rw [hs1]) hcur]
  unfold sqlite3OsLock
  rw [if_neg hnle, hsteps, hs1]
  simp

/-- Witness for the amended C4: a SHARED request from NONE under an
all-failing host. -/
theorem lock_pending_retry_busy_w :
    sqlite3OsLock envF ⟨0, NO_LOCK, 0⟩ SHARED_LOCK =
      (SQLITE_BUSY, ⟨0, NO_LOCK, 0⟩,
        [HostEvent.lockCall LockKind.excl PENDING_BYTE 1 false, HostEvent.sleepCall 1,
         HostEvent.lockCall LockKind.excl PENDING_BYTE 1 false, HostEvent.sleepCall 1,
         HostEvent.lockCall LockKind.excl PENDING_BYTE 1 false, HostEvent.sleepCall 1,
         HostEvent.lockCall LockKind.excl PENDING_BYTE 1 false, HostEvent.sleepCall 1]) :=
  lock_pending_retry_busy envF ⟨0, NO_LOCK, 0⟩ SHARED_LOCK (by decide) (Or.inl rfl)
    (fun _ _ => rfl)

/-- Counterexample to claim C3 as stated: acquiring RESERVED from NONE on
a modern host leaves the descriptor — by replaying its own acquisition
trace — holding the shared-region reader lock and the RESERVED byte; the
claim says unlock releases exactly the ranges held, but after unlock the
shared-region reader lock is still held (only the RESERVED byte was
released), because the source releases the shared read lock only when
`locktype == SHARED`, not at RESERVED or PENDING. -/
theorem unlock_leaves_shared_region_held :
    (sqlite3OsLock envT ⟨0, NO_LOCK, 0⟩ RESERVED_LOCK).1 = SQLITE_OK ∧
    (sqlite3OsLock envT ⟨0, NO_LOCK, 0⟩ RESERVED_LOCK).2.1.locktype = RESERVED_LOCK ∧
    replay [] (sqlite3OsLock envT ⟨0, NO_LOCK, 0⟩ RESERVED_LOCK).2.2 =
      [⟨SHARED_FIRST, SHARED_SIZE, LockKind.reader⟩, ⟨RESERVED_BYTE, 1, LockKind.reader⟩] ∧
    (sqlite3OsUnlock envT (sqlite3OsLock envT ⟨0, NO_LOCK, 0⟩ RESERVED_LOCK).2.1).2.1.locktype
      = NO_LOCK ∧
    replay (replay [] (sqlite3OsLock envT ⟨0, NO_LOCK, 0⟩ RESERVED_LOCK).2.2)
        (sqlite3OsUnlock envT (sqlite3OsLock envT ⟨0, NO_LOCK, 0⟩ RESERVED_LOCK).2.1).2.2 =
      [⟨SHARED_FIRST, SHARED_SIZE, LockKind.reader⟩] := by
  decide

/-- Claim C3 (amended): `sqlite3OsUnlock` always returns OK and sets
`locktype = NONE`, and releases, in order, the EXCLUSIVE region when
`locktype ≥ EXCLUSIVE`, the PENDING byte when `locktype ≥ PENDING`, the
RESERVED byte when `locktype ≥ RESERVED`, and the SHARED byte (legacy) or
SHARED region (modern) only when `locktype` is exactly SHARED — so a
shared read lock still held at RESERVED or PENDING level is not
released. -/
theorem unlock_trace_by_level (e : Env) (id : OsFile) :
    (sqlite3OsUnlock e id).1 = SQLITE_OK ∧
    (sqlite3OsUnlock e id).2.1 = { id with locktype := NO_LOCK } ∧
    (id.locktype = NO_LOCK → (sqlite3OsUnlock e id).2.2 = []) ∧
    (id.locktype = SHARED_LOCK → (sqlite3OsUnlock e id).2.2 =
      (if e.isNT then [HostEvent.unlockCall SHARED_FIRST SHARED_SIZE (e.res 0)]
       else [HostEvent.unlockCall (SHARED_FIRST + id.sharedLockByte) 1 (e.res 0)])) ∧
    (id.locktype = RESERVED_LOCK → (sqlite3OsUnlock e id).2.2 =
      [HostEvent.unlockCall RESERVED_BYTE 1 (e.res 0)]) ∧
    (id.locktype = PENDING_LOCK → (sqlite3OsUnlock e id).2.2 =
      [HostEvent.unlockCall PENDING_BYTE 1 (e.res 0),
       HostEvent.unlockCall RESERVED_BYTE 1 (e.res 1)]) ∧
    (id.locktype = EXCLUSIVE_LOCK → (sqlite3OsUnlock e id).2.2 =
      [HostEvent.unlockCall SHARED_FIRST SHARED_SIZE (e.res 0),
       HostEvent.unlockCall PENDING_BYTE 1 (e.res 1),
       HostEvent.unlockCall RESERVED_BYTE 1 (e.res 2)]) := by
  refine ⟨rfl, rfl, fun h => ?_, fun h => ?_, fun h => ?_, fun h => ?_, fun h => ?_⟩
  · simp [sqlite3OsUnlock, h, NO_LOCK, SHARED_LOCK, RESERVED_LOCK, PENDING_LOCK,
      EXCLUSIVE_LOCK]
  · simp only [sqlite3OsUnlock, unlockReadLock, h, NO_LOCK, SHARED_LOCK, RESERVED_LOCK,
      PENDING_LOCK, EXCLUSIVE_LOCK]
    norm_num
    split <;> rfl
  · simp [sqlite3OsUnlock, h, NO_LOCK, SHARED_LOCK, RESERVED_LOCK, PENDING_LOCK,
      EXCLUSIVE_LOCK]
  · simp [sqlite3OsUnlock, h, NO_LOCK, SHARED_LOCK, RESERVED_LOCK, PENDING_LOCK,
      EXCLUSIVE_LOCK]
  · simp [sqlite3OsUnlock, h, NO_LOCK, SHARED_LOCK, RESERVED_LOCK, PENDING_LOCK,
      EXCLUSIVE_LOCK]

/-- Witness for the amended C3 at a concrete PENDING holder: exactly the
PENDING and RESERVED bytes are released, in that order. -/
theorem unlock_trace_by_level_w :
    (sqlite3OsUnlock envT ⟨0, PENDING_LOCK, 0⟩).2.2 =
      [HostEvent.unlockCall PENDING_BYTE 1 true,
       HostEvent.unlockCall RESERVED_BYTE 1 true] := by
  have h := (unlock_trace_by_level envT ⟨0, PENDING_LOCK, 0⟩).2.2.2.2.2.1 rfl
  simpa [envT] using h

/-- Claim C2: when `lock(fd, EXCLUSIVE)` is called at SHARED, RESERVED or
PENDING, the shared read lock is released (successfully, per the first
oracle hypothesis) and the whole-region exclusive host lock then fails
(second oracle hypothesis): the call returns BUSY, `locktype` keeps its
prior value, the successful release of the shared lock is in the trace,
and no successful host acquisition in the call touches the shared region
— the released SHARED lock is not restored. -/
theorem lock_exclusive_busy_drops_shared (e : Env) (id : OsFile)
    (h1 : SHARED_LOCK ≤ id.locktype) (h2 : id.locktype < EXCLUSIVE_LOCK)
    (hrel : e.res (if id.locktype = SHARED_LOCK then 1 else 0) = true)
    (hexc : e.res ((if id.locktype = SHARED_LOCK then 1 else 0) + 1) = false) :
    (sqlite3OsLock e id EXCLUSIVE_LOCK).1 = SQLITE_BUSY ∧
    (sqlite3OsLock e id EXCLUSIVE_LOCK).2.1.locktype = id.locktype ∧
    sharedRelease e id.sharedLockByte ∈ (sqlite3OsLock e id EXCLUSIVE_LOCK).2.2 ∧
    (sqlite3OsLock e id EXCLUSIVE_LOCK).2.2.filter acquiresInSharedRegion = [] := by
  have hl : id.locktype = 1 ∨ id.locktype = 2 ∨ id.locktype = 3 := by
    simp [SHARED_LOCK, EXCLUSIVE_LOCK] at h1 h2
    omega
  rcases hl with hl | hl | hl <;>
    simp only [hl] at hrel hexc <;>
    norm_num [SHARED_LOCK] at hrel hexc <;>
    by_cases hNT : e.isNT <;>
      simp [sqlite3OsLock, lockSteps, step1, step2, step3, step4, step4b, getReadLock,
        unlockReadLock, sharedRelease, acquiresInSharedRegion, hl, hrel, hexc, hNT,
        NO_LOCK, SHARED_LOCK, RESERVED_LOCK, PENDING_LOCK, EXCLUSIVE_LOCK,
        SHARED_FIRST, SHARED_SIZE, RESERVED_BYTE, PENDING_BYTE, SQLITE_OK, SQLITE_BUSY]

/-- Witness for C2: promotion from RESERVED under an NT host whose first
call (the shared release) succeeds and whose second (the region lock)
fails. -/
theorem lock_exclusive_busy_drops_shared_w :
    (sqlite3OsLock envC2 ⟨0, RESERVED_LOCK, 0⟩ EXCLUSIVE_LOCK).1 = SQLITE_BUSY ∧
    (sqlite3OsLock envC2 ⟨0, RESERVED_LOCK, 0⟩ EXCLUSIVE_LOCK).2.1.locktype = RESERVED_LOCK ∧
    sharedRelease envC2 0 ∈ (sqlite3OsLock envC2 ⟨0, RESERVED_LOCK, 0⟩ EXCLUSIVE_LOCK).2.2 ∧
    (sqlite3OsLock envC2 ⟨0, RESERVED_LOCK, 0⟩ EXCLUSIVE_LOCK).2.2.filter
      acquiresInSharedRegion = [] :=
  lock_exclusive_busy_drops_shared envC2 ⟨0, RESERVED_LOCK, 0⟩ (by decide) (by decide)
    (by decide) (by decide)

/-- Claim C7: on a legacy host, when a lock call acquires SHARED
(`target ≥ SHARED`, `fd.locktype < SHARED`, PENDING pre-lock succeeded),
the chosen byte index equals `(rand & 0x7fffffff) mod (SHARED_SIZE - 1)`
for the drawn random integer, is recorded in `fd.sharedLockByte`, lies in
`0 .. SHARED_SIZE - 2`, and the 1-byte exclusive host lock is taken at
offset `SHARED_FIRST + byte`. -/
theorem lock_shared_legacy_byte (e : Env) (id : OsFile) (target : Nat)
    (hNT : e.isNT = false)
    (hcur : id.locktype < SHARED_LOCK) (htgt : SHARED_LOCK ≤ target)
    (hres : (step1 e id target).res = true) :
    (sqlite3OsLock e id target).2.1.sharedLockByte =
      (e.rand &&& 0x7fffffff) % (SHARED_SIZE - 1) ∧
    (e.rand &&& 0x7fffffff) % (SHARED_SIZE - 1) ≤ SHARED_SIZE - 2 ∧
    (∃ ok, HostEvent.lockCall LockKind.excl
        (SHARED_FIRST + (e.rand &&& 0x7fffffff) % (SHARED_SIZE - 1)) 1 ok ∈
      (sqlite3OsLock e id target).2.2) := by
  have hnle : ¬ target ≤ id.locktype := by omega
  have hb2 : (step2 e id target (step1 e id target)).slb =
      (e.rand &&& 0x7fffffff) % (SHARED_SIZE - 1) := by
    unfold step2
    rw [if_pos ⟨htgt, hcur, hres⟩]
    simp only [hNT, Bool.false_eq_true, if_false]
    split <;> rfl
  have hm2 : HostEvent.lockCall LockKind.excl
      (SHARED_FIRST + (e.rand &&& 0x7fffffff) % (SHARED_SIZE - 1)) 1
      (e.res (step1 e id target).k) ∈ (step2 e id target (step1 e id target)).trace := by
    unfold step2
    rw [if_pos ⟨htgt, hcur, hres⟩]
    simp only [hNT, Bool.false_eq_true, if_false]
    split <;> simp
  obtain ⟨u3, hu3⟩ := step3_trace e id target (step2 e id target (step1 e id target))
  obtain ⟨u4, hu4⟩ :=
    step4_trace e id target (step3 e id target (step2 e id target (step1 e id target)))
  have hslb : (lockSteps e id target).slb = (e.rand &&& 0x7fffffff) % (SHARED_SIZE - 1) := by
    unfold lockSteps
    rw [step4_slb, step3_slb, hb2]
  have hmem : HostEvent.lockCall LockKind.excl
      (SHARED_FIRST + (e.rand &&& 0x7fffffff) % (SHARED_SIZE - 1)) 1
      (e.res (step1 e id target).k) ∈ (lockSteps e id target).trace := by
    unfold lockSteps
    rw [hu4, hu3]
    exact List.mem_append_left _ (List.mem_append_left _ hm2)
  have hbound : (e.rand &&& 0x7fffffff) % (SHARED_SIZE - 1) ≤ SHARED_SIZE - 2 := by
    have hpos : 0 < SHARED_SIZE - 1 := by decide
    have := Nat.mod_lt (e.rand &&& 0x7fffffff) hpos
    omega
  refine ⟨?_, hbound, ⟨e.res (step1 e id target).k, ?_⟩⟩
  · unfold sqlite3OsLock
    rw [if_neg hnle]
    split
    · exact hslb
    · exact hslb
  · unfold sqlite3OsLock
    rw [if_neg hnle]
    split
    · exact hmem
    · exact hmem

/-- Witness for C7: SHARED acquisition from NONE on a legacy host with
random draw 12345, all host calls succeeding. -/
theorem lock_shared_legacy_byte_w :
    (sqlite3OsLock envL ⟨0, NO_LOCK, 0⟩ SHARED_LOCK).2.1.sharedLockByte =
      (envL.rand &&& 0x7fffffff) % (SHARED_SIZE - 1) ∧
    (envL.rand &&& 0x7fffffff) % (SHARED_SIZE - 1) ≤ SHARED_SIZE - 2 ∧
    (∃ ok, HostEvent.lockCall LockKind.excl
        (SHARED_FIRST + (envL.rand &&& 0x7fffffff) % (SHARED_SIZE - 1)) 1 ok ∈
      (sqlite3OsLock envL ⟨0, NO_LOCK, 0⟩ SHARED_LOCK).2.2) :=
  lock_shared_legacy_byte envL ⟨0, NO_LOCK, 0⟩ SHARED_LOCK rfl (by decide) (by decide)
    (by decide)

end OsWin
